import Mathlib

/-!
Verification of the Adaptive Assessment Engine of the ITS compound-interest
tutor (`apps.py`).  The numeric computations of the source are embedded over
`ℚ`; Python's `round(x, 2)` (round-half-to-even) is modelled by `round2`.
Time `t` and compounding frequency `n` are embedded as naturals, so the
exponentiations of the source are exact rational powers.
-/

/-- Round a rational to the nearest integer, ties to even, modelling Python's
built-in `round` on exact values. -/
def rhe (x : ℚ) : ℤ :=
  if x - ⌊x⌋ < 1/2 then ⌊x⌋
  else if 1/2 < x - ⌊x⌋ then ⌊x⌋ + 1
  else if ⌊x⌋ % 2 = 0 then ⌊x⌋ else ⌊x⌋ + 1

/-- Python's `round(x, 2)`: round to 2 decimal places. -/
def round2 (x : ℚ) : ℚ := (rhe (x * 100) : ℚ) / 100

/-- `compound_interest` (apps.py lines 83-100), amount component.
`A = P * (1 + r/n)^(n*t)` with `r = rate_percent / 100`, returned as
`round(A, 2)`.  The accompanying `steps` dict is presentation text and is
not modelled.  At `n = 0` the source raises `ZeroDivisionError` while this
embedding totalizes the division, so the embedding is faithful only for
`1 ≤ n`: every theorem below about non-concrete `n` carries that
hypothesis. -/
def compound_interest (P rate_percent : ℚ) (t n : ℕ) : ℚ :=
  let r := rate_percent / 100
  let A := P * (1 + r / n) ^ (n * t)
  round2 A

lemma rhe_of_lo (x : ℚ) (k : ℤ) (h1 : (k : ℚ) ≤ x) (h2 : x < k + 1/2) :
    rhe x = k := by
  have hf : ⌊x⌋ = k := Int.floor_eq_iff.mpr ⟨h1, by linarith⟩
  have hk : ((⌊x⌋ : ℤ) : ℚ) = (k : ℚ) := by rw [hf]
  rw [rhe, hk, if_pos (by linarith)]
  exact hf

lemma rhe_of_hi (x : ℚ) (k : ℤ) (h1 : (k : ℚ) + 1/2 < x) (h2 : x < k + 1) :
    rhe x = k + 1 := by
  have hf : ⌊x⌋ = k := Int.floor_eq_iff.mpr ⟨by linarith, h2⟩
  have hk : ((⌊x⌋ : ℤ) : ℚ) = (k : ℚ) := by rw [hf]
  rw [rhe, hk, if_neg (by linarith), if_pos (by linarith)]
  rw [hf]

lemma rhe_of_tie (x : ℚ) (k : ℤ) (h : x = k + 1/2) :
    rhe x = if k % 2 = 0 then k else k + 1 := by
  have hf : ⌊x⌋ = k := Int.floor_eq_iff.mpr ⟨by rw [h]; linarith, by rw [h]; linarith⟩
  have hk : ((⌊x⌋ : ℤ) : ℚ) = (k : ℚ) := by rw [hf]
  rw [rhe, hk, if_neg (by rw [h]; linarith), if_neg (by rw [h]; linarith), hf]

lemma round2_of_lo (x : ℚ) (k : ℤ) (h1 : (k : ℚ) ≤ x * 100)
    (h2 : x * 100 < k + 1/2) : round2 x = k / 100 := by
  rw [round2, rhe_of_lo _ k h1 h2]

lemma round2_of_hi (x : ℚ) (k : ℤ) (h1 : (k : ℚ) + 1/2 < x * 100)
    (h2 : x * 100 < k + 1) : round2 x = (k + 1) / 100 := by
  rw [round2, rhe_of_hi _ k h1 h2]
  push_cast
  ring

lemma round2_of_tie (x : ℚ) (k : ℤ) (h : x * 100 = k + 1/2) :
    round2 x = ((if k % 2 = 0 then k else k + 1 : ℤ) : ℚ) / 100 := by
  rw [round2, rhe_of_tie _ k h]

/-- The misconception tags returned by `detect_misconception` (the source
returns them as the Python strings of the same names). -/
inductive Misconception
  | mis_simple_interest
  | mis_ignore_compounding
  | mis_one_year_only
  | mis_wrong_rate_conversion
deriving DecidableEq

/-- `detect_misconception` (apps.py lines 107-129).  Returns the first
matching misconception tag or `none`.  The `correct_amount` parameter is
accepted but unused, exactly as in the source. -/
def detect_misconception (P rate : ℚ) (t n : ℕ)
    (user_answer correct_amount : ℚ) : Option Misconception :=
  let si := P * (1 + (rate / 100) * t)
  if |user_answer - si| < 1 then some .mis_simple_interest
  else
    let annual := P * (1 + rate / 100) ^ t
    if |user_answer - annual| < 1 ∧ n ≠ 1 then some .mis_ignore_compounding
    else
      let one_year := P * (1 + (rate / 100) / n) ^ n
      if |user_answer - one_year| < 1 ∧ t > 1 then some .mis_one_year_only
      else
        let wrong_rate := P * (1 + rate / n) ^ (n * t)
        if |user_answer - wrong_rate| < 1 then some .mis_wrong_rate_conversion
        else none

/-- The spec's closed enumeration `MisconceptionKind`. -/
inductive MisconceptionKind
  | SimpleInterest
  | IgnoreCompoundingFrequency
  | OneYearOnly
  | WrongRateConversion
  | NoMisconception
deriving DecidableEq

/-- Map the code's tag (or `none`) to the spec's `MisconceptionKind`. -/
def kindOf : Option Misconception → MisconceptionKind
  | some .mis_simple_interest => .SimpleInterest
  | some .mis_ignore_compounding => .IgnoreCompoundingFrequency
  | some .mis_one_year_only => .OneYearOnly
  | some .mis_wrong_rate_conversion => .WrongRateConversion
  | none => .NoMisconception

/-- Modelled from the words of claim C2 (no degenerate-input guards): the
classifier "returns the first candidate whose reconstruction is within
absolute difference 1.0 of the submitted answer and None if no candidate
matches", the candidates being taken in the fixed priority order
SimpleInterest, IgnoreCompoundingFrequency, OneYearOnly,
WrongRateConversion. -/
def classifyUnguarded (P rate : ℚ) (t n : ℕ) (submitted : ℚ) :
    MisconceptionKind :=
  if |submitted - P * (1 + (rate / 100) * t)| < 1 then .SimpleInterest
  else if |submitted - P * (1 + rate / 100) ^ t| < 1 then
    .IgnoreCompoundingFrequency
  else if |submitted - P * (1 + (rate / 100) / n) ^ n| < 1 then .OneYearOnly
  else if |submitted - P * (1 + rate / n) ^ (n * t)| < 1 then
    .WrongRateConversion
  else .NoMisconception

/-- The amended claim C2's classifier: candidates in the fixed priority
order, each matching within absolute difference 1.0, with the degenerate
input guards of the source (`IgnoreCompoundingFrequency` requires `n ≠ 1`,
`OneYearOnly` requires `t > 1`). -/
def classifyGuarded (P rate : ℚ) (t n : ℕ) (submitted : ℚ) :
    MisconceptionKind :=
  if |submitted - P * (1 + (rate / 100) * t)| < 1 then .SimpleInterest
  else if n ≠ 1 ∧ |submitted - P * (1 + rate / 100) ^ t| < 1 then
    .IgnoreCompoundingFrequency
  else if 1 < t ∧ |submitted - P * (1 + (rate / 100) / n) ^ n| < 1 then
    .OneYearOnly
  else if |submitted - P * (1 + rate / n) ^ (n * t)| < 1 then
    .WrongRateConversion
  else .NoMisconception

/-- The learner state held on the `student_1` individual: score, correct
streak and difficulty level (Python integers, embedded as `ℤ`). -/
structure Student where
  hasScore : ℤ
  hasCorrectStreak : ℤ
  hasDifficultyLevel : ℤ
deriving DecidableEq

/-- `update_student_profile` (apps.py lines 175-202), the pure state
transition on the non-`None` student path: score/streak update followed by
the difficulty adaptation. -/
def update_student_profile (s : Student) (is_correct : Bool) : Student :=
  let score := if is_correct then s.hasScore + 1 else s.hasScore
  let streak := if is_correct then s.hasCorrectStreak + 1 else 0
  let diff := s.hasDifficultyLevel
  if is_correct ∧ streak ≥ 3 ∧ diff < 3 then
    { hasScore := score, hasCorrectStreak := 0, hasDifficultyLevel := diff + 1 }
  else if ¬is_correct ∧ diff > 1 then
    { hasScore := score, hasCorrectStreak := streak,
      hasDifficultyLevel := diff - 1 }
  else
    { hasScore := score, hasCorrectStreak := streak,
      hasDifficultyLevel := diff }

/-- Iterate `update_student_profile` over a sequence of correct/incorrect
answers (`true` = correct). -/
def run_profile (s : Student) (inputs : List Bool) : Student :=
  inputs.foldl update_student_profile s

/-- `random.choice` over a fixed list, with the random draw embedded as an
index (taken modulo the list length). -/
def choice (l : List ℤ) (i : ℕ) : ℤ := l.getD (i % l.length) 0

/-- The problem parameters produced by the `/quiz` route. -/
structure QuizParams where
  principal : ℤ
  rate : ℤ
  time : ℤ
  n : ℤ
  difficulty : ℤ
deriving DecidableEq

/-- `quiz` (apps.py lines 258-294), parameter generation: the random draws
are embedded as the indices `i j k l` and the coin `c` (which models
`random.random() < 0.8` in the medium branch).  The question string is
presentation text and is not modelled. -/
def quiz (difficulty : ℤ) (i j k l : ℕ) (c : Bool) : QuizParams :=
  if difficulty = 1 then
    { principal := choice [100, 200, 300] i, rate := choice [2, 3, 4] j,
      time := choice [1, 2] k, n := 1, difficulty := difficulty }
  else if difficulty = 2 then
    { principal := choice [300, 500, 800] i, rate := choice [3, 4, 5] j,
      time := if c then 2 else 1, n := choice [1, 2, 4] l,
      difficulty := difficulty }
  else
    { principal := choice [800, 1000, 1500] i, rate := choice [5, 6, 7] j,
      time := choice [2, 3] k, n := choice [4, 6, 12] l,
      difficulty := difficulty }

lemma floor_le_rhe (x : ℚ) : ⌊x⌋ ≤ rhe x := by
  rw [rhe]
  split_ifs <;> omega

lemma update_true (s : Student) :
    update_student_profile s true =
      if 3 ≤ s.hasCorrectStreak + 1 ∧ s.hasDifficultyLevel < 3 then
        ⟨s.hasScore + 1, 0, s.hasDifficultyLevel + 1⟩
      else ⟨s.hasScore + 1, s.hasCorrectStreak + 1, s.hasDifficultyLevel⟩ := by
  simp only [update_student_profile]
  norm_num

lemma update_false (s : Student) :
    update_student_profile s false =
      if 1 < s.hasDifficultyLevel then ⟨s.hasScore, 0, s.hasDifficultyLevel - 1⟩
      else ⟨s.hasScore, 0, s.hasDifficultyLevel⟩ := by
  simp only [update_student_profile]
  norm_num

lemma lvl_step (s : Student) (b : Bool) (h1 : 1 ≤ s.hasDifficultyLevel)
    (h3 : s.hasDifficultyLevel ≤ 3) :
    1 ≤ (update_student_profile s b).hasDifficultyLevel ∧
      (update_student_profile s b).hasDifficultyLevel ≤ 3 := by
  cases b
  · rw [update_false]; split_ifs with h <;> simp <;> omega
  · rw [update_true]; split_ifs with h <;> simp <;> omega

/-- Claim C1: for every valid input (`P > 0`, `rate ≥ 0`, `t > 0`, `n ≥ 1`)
the Formula Evaluator returns `round(P * (1 + (rate/100)/n)^(n*t), 2)`; in
particular `evaluate(100, 5, 1, 1)` returns 105.00 and
`evaluate(1000, 6, 2, 12)` returns 1127.16. -/
theorem claimC1_formula_and_values :
    (∀ (P rate : ℚ) (t n : ℕ), 0 < P → 0 ≤ rate → 0 < t → 1 ≤ n →
      compound_interest P rate t n = round2 (P * (1 + rate / 100 / n) ^ (n * t)))
    ∧ compound_interest 100 5 1 1 = 105
    ∧ compound_interest 1000 6 2 12 = 112716 / 100 := by
  refine ⟨fun P rate t n _ _ _ _ => rfl, ?_, ?_⟩
  · show round2 _ = _
    rw [round2_of_lo _ 10500 (by norm_num) (by norm_num)]
    norm_num
  · show round2 _ = _
    rw [round2_of_hi _ 112715 (by norm_num) (by norm_num)]
    norm_num

theorem claimC1_witness :
    compound_interest 200 3 2 4 =
      round2 (200 * (1 + (3 : ℚ) / 100 / ((4 : ℕ) : ℚ)) ^ ((4 : ℕ) * 2)) :=
  claimC1_formula_and_values.1 200 3 2 4 (by norm_num) (by norm_num)
    (by norm_num) (by norm_num)

/-- Claim C2, counterexample: with `P=100, rate=5, t=2, n=1` and submitted
answer 111.10, the second candidate reconstruction (`110.25`) is the first
one within absolute difference 1.0, so by the claim the classifier should
return `IgnoreCompoundingFrequency`; the code returns `None` (the `n ≠ 1`
guard suppresses the match, which the claim does not mention). -/
theorem claimC2_counterexample :
    classifyUnguarded 100 5 2 1 (1111/10) =
      MisconceptionKind.IgnoreCompoundingFrequency
    ∧ detect_misconception 100 5 2 1 (1111/10) (441/4) = none := by
  constructor
  · unfold classifyUnguarded
    norm_num [abs_lt]
  · unfold detect_misconception
    norm_num [abs_lt]

/-- Claim C2 as amended: the classifier evaluates the four candidates in the
fixed priority order SimpleInterest, IgnoreCompoundingFrequency (applicable
only when `n ≠ 1`), OneYearOnly (applicable only when `t > 1`),
WrongRateConversion, returning the first applicable candidate whose
reconstruction is within absolute difference 1.0 of the submitted answer and
None if no candidate matches; in particular for `P=100, rate=5, t=2, n=1`
a submitted answer of 110.00 is classified as SimpleInterest. -/
theorem claimC2_priority_with_guards :
    (∀ (P rate : ℚ) (t n : ℕ) (ua c : ℚ),
      kindOf (detect_misconception P rate t n ua c) = classifyGuarded P rate t n ua)
    ∧ kindOf (detect_misconception 100 5 2 1 110 (441/4)) =
        MisconceptionKind.SimpleInterest := by
  constructor
  · intro P rate t n ua c
    simp only [detect_misconception, classifyGuarded]
    by_cases h1 : |ua - P * (1 + rate / 100 * ↑t)| < 1
    · rw [if_pos h1, if_pos h1]; rfl
    · rw [if_neg h1, if_neg h1]
      by_cases h2 : |ua - P * (1 + rate / 100) ^ t| < 1 ∧ n ≠ 1
      · rw [if_pos h2, if_pos (And.intro h2.2 h2.1)]; rfl
      · have h2' : ¬(n ≠ 1 ∧ |ua - P * (1 + rate / 100) ^ t| < 1) :=
          fun hh => h2 ⟨hh.2, hh.1⟩
        rw [if_neg h2, if_neg h2']
        by_cases h3 : |ua - P * (1 + rate / 100 / ↑n) ^ n| < 1 ∧ t > 1
        · rw [if_pos h3, if_pos (And.intro h3.2 h3.1)]; rfl
        · have h3' : ¬(1 < t ∧ |ua - P * (1 + rate / 100 / ↑n) ^ n| < 1) :=
            fun hh => h3 ⟨hh.2, hh.1⟩
          rw [if_neg h3, if_neg h3']
          by_cases h4 : |ua - P * (1 + rate / ↑n) ^ (n * t)| < 1
          · rw [if_pos h4, if_pos h4]; rfl
          · rw [if_neg h4, if_neg h4]; rfl
  · unfold detect_misconception
    norm_num [abs_lt, kindOf]

/-- Claim C3: for every learner state with difficulty level in `{1,2,3}` and
every sequence of correct/incorrect answers, iterating the Difficulty
Controller keeps the difficulty level in `{1,2,3}`. -/
theorem claimC3_difficulty_clamped (s : Student) (inputs : List Bool)
    (h1 : 1 ≤ s.hasDifficultyLevel) (h3 : s.hasDifficultyLevel ≤ 3) :
    1 ≤ (run_profile s inputs).hasDifficultyLevel ∧
      (run_profile s inputs).hasDifficultyLevel ≤ 3 := by
  induction inputs generalizing s with
  | nil => exact ⟨h1, h3⟩
  | cons b l ih =>
      have hs := lvl_step s b h1 h3
      exact ih (update_student_profile s b) hs.1 hs.2

theorem claimC3_witness :
    1 ≤ (run_profile ⟨0, 0, 1⟩
          [true, true, true, false, false, true]).hasDifficultyLevel ∧
      (run_profile ⟨0, 0, 1⟩
          [true, true, true, false, false, true]).hasDifficultyLevel ≤ 3 :=
  claimC3_difficulty_clamped ⟨0, 0, 1⟩ [true, true, true, false, false, true]
    (by decide) (by decide)

/-- Claim C4: starting from streak 0 at level 1, a correct answer before the
threshold increments the streak and leaves the level unchanged, and after 3
consecutive correct answers (the threshold the code configures) the level
becomes 2 and the streak resets to 0. -/
theorem claimC4_progression (sc streak : ℤ) :
    (streak + 1 < 3 →
      update_student_profile ⟨sc, streak, 1⟩ true = ⟨sc + 1, streak + 1, 1⟩)
    ∧ run_profile ⟨sc, 0, 1⟩ [true] = ⟨sc + 1, 1, 1⟩
    ∧ run_profile ⟨sc, 0, 1⟩ [true, true] = ⟨sc + 2, 2, 1⟩
    ∧ run_profile ⟨sc, 0, 1⟩ [true, true, true] = ⟨sc + 3, 0, 2⟩ := by
  refine ⟨?_, ?_, ?_, ?_⟩
  · intro h
    rw [update_true, if_neg (by simp; omega)]
  · simp [run_profile, update_true]
  · simp [run_profile, update_true]
    omega
  · simp [run_profile, update_true]
    omega

theorem claimC4_witness :
    update_student_profile ⟨7, 0, 1⟩ true = ⟨7 + 1, 0 + 1, 1⟩ :=
  (claimC4_progression 7 0).1 (by norm_num)

/-- Claim C5, counterexample: called with the invalid principal `P = -100`
(precondition `P > 0` violated), the Formula Evaluator does not fail with an
`InvalidParameters` error; it proceeds and returns the computed amount
`-105.00`. -/
theorem claimC5_counterexample : compound_interest (-100) 5 1 1 = -105 := by
  show round2 _ = _
  rw [round2_of_lo _ (-10500) (by norm_num) (by norm_num)]
  norm_num

/-- Claim C5 as amended: the Formula Evaluator has no `InvalidParameters`
error path.  For every input with `n ≥ 1` that violates the remaining
preconditions — a non-positive principal, or `t = 0` — it does not fail: it
proceeds and returns the rounded formula value. -/
theorem claimC5_no_validation :
    (∀ (P rate : ℚ) (t n : ℕ), 1 ≤ n → P ≤ 0 →
      compound_interest P rate t n = round2 (P * (1 + rate / 100 / n) ^ (n * t)))
    ∧ compound_interest 100 5 0 1 = 100 := by
  refine ⟨fun P rate t n _ _ => rfl, ?_⟩
  show round2 _ = _
  rw [round2_of_lo _ 10000 (by norm_num) (by norm_num)]
  norm_num

theorem claimC5_witness :
    compound_interest (-100) 5 1 1 =
      round2 ((-100) * (1 + (5 : ℚ) / 100 / ((1 : ℕ) : ℚ)) ^ ((1 : ℕ) * 1)) :=
  claimC5_no_validation.1 (-100) 5 1 1 (by norm_num) (by norm_num)

/-- Claim C6, counterexample: requested at the difficulty level 0 (outside
`{1,2,3}`), the Problem Generator does not fail with an `InvalidDifficulty`
error; it produces a hard-branch problem. -/
theorem claimC6_counterexample :
    quiz 0 0 0 0 0 false =
      { principal := 800, rate := 5, time := 2, n := 4, difficulty := 0 } := by
  rfl

/-- Claim C6 as amended: every difficulty level other than 1 and 2 (hence
every level outside `{1,2,3}`) is routed to the hard branch and produces a
problem; no `InvalidDifficulty` error exists. -/
theorem claimC6_default_hard (d : ℤ) (i j k l : ℕ) (c : Bool)
    (h1 : d ≠ 1) (h2 : d ≠ 2) :
    quiz d i j k l c =
      { principal := choice [800, 1000, 1500] i, rate := choice [5, 6, 7] j,
        time := choice [2, 3] k, n := choice [4, 6, 12] l, difficulty := d } := by
  rw [quiz, if_neg h1, if_neg h2]

theorem claimC6_witness :
    quiz 0 1 2 0 1 true =
      { principal := choice [800, 1000, 1500] 1, rate := choice [5, 6, 7] 2,
        time := choice [2, 3] 0, n := choice [4, 6, 12] 1, difficulty := 0 } :=
  claimC6_default_hard 0 1 2 0 1 true (by decide) (by decide)

/-- Claim C7, counterexample: with `P = 1.002` (valid: `P > 0`, rate 0 ≥ 0,
`t = 1 > 0`, `n = 1`), the returned amount is `round(1.002, 2) = 1.00`,
strictly below the principal: rounding to 2 decimal places can lose money
when the principal is not a whole number of hundredths. -/
theorem claimC7_counterexample :
    compound_interest (1002/1000) 0 1 1 < 1002/1000 ∧ (0:ℚ) < 1002/1000 := by
  constructor
  · show round2 _ < _
    rw [round2_of_lo _ 100 (by norm_num) (by norm_num)]
    norm_num
  · norm_num

/-- Claim C7 as amended: for every valid input whose principal is a whole
number of hundredths (`P = k/100` for an integer `k`, as every currency
amount is), the returned amount is at least the principal. -/
theorem claimC7_growth (P rate : ℚ) (t n : ℕ) (k : ℤ) (hP : 0 < P)
    (hr : 0 ≤ rate) (ht : 0 < t) (hn : 1 ≤ n) (hPk : P = (k : ℚ) / 100) :
    P ≤ compound_interest P rate t n := by
  have hn0 : (0:ℚ) < (n:ℚ) := by exact_mod_cast hn
  have hq : (0:ℚ) ≤ rate / 100 / n := by positivity
  have hbase : (1:ℚ) ≤ 1 + rate / 100 / n := by linarith
  have hpow : (1:ℚ) ≤ (1 + rate / 100 / n) ^ (n * t) := one_le_pow₀ hbase
  have hA : P ≤ P * (1 + rate / 100 / n) ^ (n * t) :=
    le_mul_of_one_le_right hP.le hpow
  show P ≤ round2 (P * (1 + rate / 100 / n) ^ (n * t))
  rw [round2]
  have hfl : k ≤ ⌊P * (1 + rate / 100 / n) ^ (n * t) * 100⌋ := by
    rw [Int.le_floor]
    rw [hPk] at hA
    nlinarith
  have hrhe : (k:ℚ) ≤ (rhe (P * (1 + rate / 100 / n) ^ (n * t) * 100) : ℚ) := by
    exact_mod_cast le_trans hfl (floor_le_rhe _)
  nth_rewrite 1 [hPk]
  linarith

theorem claimC7_witness : (100:ℚ) ≤ compound_interest 100 5 1 1 :=
  claimC7_growth 100 5 1 1 10000 (by norm_num) (by norm_num) (by norm_num)
    (by norm_num) (by norm_num)

/-- Claim C8: with `n = 1` the classifier never returns the
ignore-compounding-frequency misconception, and with `t ≤ 1` it never
returns the one-year-only misconception, whatever the submitted answer. -/
theorem claimC8_degenerate_guards :
    (∀ (P rate : ℚ) (t : ℕ) (ua c : ℚ),
      detect_misconception P rate t 1 ua c ≠
        some Misconception.mis_ignore_compounding)
    ∧ (∀ (P rate : ℚ) (t n : ℕ) (ua c : ℚ), t ≤ 1 →
      detect_misconception P rate t n ua c ≠
        some Misconception.mis_one_year_only) := by
  constructor
  · intro P rate t ua c
    simp only [detect_misconception]
    split_ifs with h1 h2 h3 h4 <;> simp_all
  · intro P rate t n ua c ht
    simp only [detect_misconception]
    split_ifs with h1 h2 h3 h4 <;> simp_all <;> omega

theorem claimC8_witness :
    detect_misconception 100 5 1 4 500 0 ≠
      some Misconception.mis_one_year_only :=
  claimC8_degenerate_guards.2 100 5 1 4 500 0 (le_refl 1)

/-- Claim C9: on an incorrect answer the Difficulty Controller leaves the
score unchanged, resets the streak to 0, and decrements the level by exactly
1 whenever the level is above 1 (demote-on-any-incorrect policy). -/
theorem claimC9_incorrect_transition (s : Student) :
    (update_student_profile s false).hasScore = s.hasScore
    ∧ (update_student_profile s false).hasCorrectStreak = 0
    ∧ (update_student_profile s false).hasDifficultyLevel =
        (if 1 < s.hasDifficultyLevel then s.hasDifficultyLevel - 1
          else s.hasDifficultyLevel) := by
  rw [update_false]
  split_ifs with h <;> simp

/-- Claim C10, counterexample: with `P = 100.555, rate = 0, t = 1, n = 1`
the Formula Evaluator returns 100.56 (the correct amount handed to the quiz
checker), and the submitted answer 101.555 differs from that correct amount
by 0.995, inside `[0.01, 1.0)`; yet the classifier returns `None`, not
`SimpleInterest`, because it compares against the unrounded reconstruction
100.555, exactly 1.0 away. -/
theorem claimC10_counterexample :
    compound_interest (20111/200) 0 1 1 = 2514/25
    ∧ 1/100 ≤ |(20311/200 : ℚ) - 2514/25|
    ∧ |(20311/200 : ℚ) - 2514/25| < 1
    ∧ detect_misconception (20111/200) 0 1 1 (20311/200) (2514/25) = none := by
  refine ⟨?_, ?_, ?_, ?_⟩
  · show round2 _ = _
    rw [round2_of_tie _ 10055 (by norm_num)]
    norm_num
  · exact le_trans (by norm_num) (le_abs_self _)
  · norm_num [abs_lt]
  · unfold detect_misconception
    norm_num [abs_lt]

/-- Claim C10 as amended: for `n = 1` and `t = 1` (where the simple-interest
reconstruction coincides with the exact, unrounded correct amount), every
submitted answer whose absolute difference from that exact amount
`P*(1 + rate/100)` is at least 0.01 but less than 1.0 is classified as
SimpleInterest: the first candidate has no degenerate-input guard. -/
theorem claimC10_simple_interest_unguarded (P rate ua c : ℚ)
    (hlo : 1/100 ≤ |ua - P * (1 + rate / 100)|)
    (hhi : |ua - P * (1 + rate / 100)| < 1) :
    detect_misconception P rate 1 1 ua c =
      some Misconception.mis_simple_interest := by
  unfold detect_misconception
  simp only [Nat.cast_one, mul_one]
  rw [if_pos hhi]

theorem claimC10_witness :
    detect_misconception 100 5 1 1 (211/2) 0 =
      some Misconception.mis_simple_interest :=
  claimC10_simple_interest_unguarded 100 5 (211/2) 0
    (le_trans (by norm_num) (le_abs_self _)) (by norm_num [abs_lt])
